import Mathlib

/-!
Verification development for the gesture-classification and voxel-grid core of
`src/App.tsx` (the "Voxel Draw" hand-detection application).

The embedding is shallow and faithful to the source:

* Landmark coordinates are rationals (the source uses JS numbers; every
  comparison the core makes is between finite decimal constants and sums,
  products and quotients of coordinates, all of which are exact over `ℚ`).
* The source compares `Math.sqrt(dx^2 + dy^2) < c` for nonnegative `c`;
  we embed this as the equivalent `dx^2 + dy^2 < c^2`, avoiding irrational
  square roots while preserving every branch decision exactly.
* Timestamps (`Date.now()`, milliseconds) are integers.
* The voxel store is a `Set<string>` of keys of the form `"gx,gy"` built only
  by `` `${gx},${gy}` `` from integers and re-parsed by
  `key.split(',').map(Number)`; that encoding is injective on integer pairs,
  so the store is embedded as a `Finset (ℤ × ℤ)` and the two mutations as
  `stamp` (line 182: `voxelsRef.current.add(key)`) and `shiftAll`
  (lines 156-162: rebuild the set with every key translated).
* The three mutable refs `fistStartTimeRef`, `isGrabbingRef`,
  `lastHandPosRef` (lines 26-28) form one record `CarryState`.  Note there is
  a single such record for the whole application, not one per hand.
* JavaScript's `if (!fistStartTimeRef.current)` treats both `null` and the
  timestamp `0` as unset; the embedding models this falsy check exactly.
-/

/-- One tracked hand landmark: a point in normalized `[0,1] × [0,1]` image
space (source: the objects in `results.multiHandLandmarks[i]`). -/
structure Landmark where
  x : ℚ
  y : ℚ
deriving DecidableEq

/-- The landmarks of one hand that the core reads (source lines 100-105:
indices 0 = wrist, 4 = thumb tip, 8 = index tip, 12 = middle tip,
16 = ring tip, 20 = pinky tip). -/
structure HandFrame where
  wrist : Landmark
  thumbTip : Landmark
  indexTip : Landmark
  middleTip : Landmark
  ringTip : Landmark
  pinkyTip : Landmark
deriving DecidableEq

/-- The mutable carry-state of the grab tracker, one record for the whole
application (source lines 26-28: `fistStartTimeRef`, `isGrabbingRef`,
`lastHandPosRef`). -/
structure CarryState where
  fistStartTime : Option ℤ
  isGrabbing : Bool
  lastHandPos : Option (ℚ × ℚ)
deriving DecidableEq

/-- Source line 23: `const gridSize = 40`. -/
def gridSize : ℚ := 40

/-- Squared Euclidean distance between two landmarks.  The source's
`getDistance` (line 64) and the inline pinch distance (lines 116-119) take a
square root and compare against a nonnegative constant `c`; comparing the
square against `c^2` makes exactly the same branch decisions. -/
def getDistanceSq (p1 p2 : Landmark) : ℚ :=
  (p1.x - p2.x) ^ 2 + (p1.y - p2.y) ^ 2

/-- Source line 120: `const isPinching = dist < 0.04` with `dist` the
thumb-tip/index-tip distance in un-mirrored normalized space (lines 116-119),
embedded via squared distances. -/
def isPinching (h : HandFrame) : Bool :=
  decide (getDistanceSq h.thumbTip h.indexTip < (4 / 100 : ℚ) ^ 2)

/-- Source lines 123-129: all four wrist-to-fingertip distances `< 0.15`,
embedded via squared distances. -/
def isFist (h : HandFrame) : Bool :=
  decide (getDistanceSq h.indexTip h.wrist < (15 / 100 : ℚ) ^ 2 ∧
    getDistanceSq h.middleTip h.wrist < (15 / 100 : ℚ) ^ 2 ∧
    getDistanceSq h.ringTip h.wrist < (15 / 100 : ℚ) ^ 2 ∧
    getDistanceSq h.pinkyTip h.wrist < (15 / 100 : ℚ) ^ 2)

/-- JavaScript `Math.round` on the values reached here: round half toward
positive infinity, i.e. `⌊x + 1/2⌋` (source lines 153-154). -/
def jsRound (x : ℚ) : ℤ := ⌊x + 1 / 2⌋

/-- The dwell/release logic of source lines 132-142.  `fist` is the frame's
`isFist` value.  JavaScript's `!fistStartTimeRef.current` is falsy both for
`null` and for a stored timestamp `0`, so both re-start the dwell timer. -/
def updateFistState (now : ℤ) (fist : Bool) (st : CarryState) : CarryState :=
  if fist then
    match st.fistStartTime with
    | none => { st with fistStartTime := some now }
    | some t0 =>
      if t0 = 0 then { st with fistStartTime := some now }
      else if now - t0 > 1000 then { st with isGrabbing := true }
      else st
  else { fistStartTime := none, isGrabbing := false, lastHandPos := none }

/-- A command issued to the voxel grid store: §4.4's `stamp` and `shiftAll`. -/
inductive GridCmd where
  | stamp (key : ℤ × ℤ)
  | shiftAll (d : ℤ × ℤ)
deriving DecidableEq

/-- The wrist-movement tracking of source lines 144-168, taken when
`isGrabbingRef.current` is true.  `cur` is the mapped wrist pixel position.
Returns the updated carry-state and the at-most-one `shiftAll` command. -/
def moveStep (st : CarryState) (cur : ℚ × ℚ) : CarryState × Option GridCmd :=
  match st.lastHandPos with
  | some last =>
    let dx := cur.1 - last.1
    let dy := cur.2 - last.2
    if |dx| > gridSize ∨ |dy| > gridSize then
      let shiftX := jsRound (dx / gridSize)
      let shiftY := jsRound (dy / gridSize)
      if shiftX ≠ 0 ∨ shiftY ≠ 0 then
        ({ st with lastHandPos := some cur }, some (GridCmd.shiftAll (shiftX, shiftY)))
      else (st, none)
    else (st, none)
  | none => ({ st with lastHandPos := some cur }, none)

/-- Processing of one hand inside the `forEach` of `onResults`
(source lines 98-192, drawing calls omitted): coordinate mapping with the
mirror flip `mappedX = (1 - x) * canvasWidth` (lines 108-111), gesture
detection (lines 113-129), the dwell logic (lines 132-142), then either the
grab movement branch (lines 144-168) or the pinch-to-stamp branch
(lines 178-182).  `W`/`H` are `canvasElement.width`/`height`. -/
def processHand (now : ℤ) (W H : ℚ) (st : CarryState) (h : HandFrame) :
    CarryState × Option GridCmd :=
  let mappedX := (1 - h.indexTip.x) * W
  let mappedY := h.indexTip.y * H
  let mappedWristX := (1 - h.wrist.x) * W
  let mappedWristY := h.wrist.y * H
  let st1 := updateFistState now (isFist h) st
  if st1.isGrabbing then
    moveStep st1 (mappedWristX, mappedWristY)
  else if isPinching h then
    (st1, some (GridCmd.stamp (⌊mappedX / gridSize⌋, ⌊mappedY / gridSize⌋)))
  else (st1, none)

/-- §4.4 `stamp(key)`: source line 182, `voxelsRef.current.add(key)`. -/
def stamp (s : Finset (ℤ × ℤ)) (key : ℤ × ℤ) : Finset (ℤ × ℤ) :=
  insert key s

/-- §4.4 `shiftAll(dx,dy)`: source lines 156-162, rebuild the set with every
key `(gx, gy)` replaced by `(gx + shiftX, gy + shiftY)`. -/
def shiftAll (s : Finset (ℤ × ℤ)) (d : ℤ × ℤ) : Finset (ℤ × ℤ) :=
  s.image fun p => (p.1 + d.1, p.2 + d.2)

/-- Apply one grid command to the store. -/
def applyCmd (s : Finset (ℤ × ℤ)) : GridCmd → Finset (ℤ × ℤ)
  | GridCmd.stamp key => stamp s key
  | GridCmd.shiftAll d => shiftAll s d

/-- Process the hands of one frame in order through the single shared
carry-state, applying grid mutations as they are issued (the body of the
`forEach` loop over `results.multiHandLandmarks`, source lines 98-208).
Also returns the list of issued commands, in order. -/
def runHands (now : ℤ) (W H : ℚ) (st : CarryState) (grid : Finset (ℤ × ℤ)) :
    List HandFrame → CarryState × Finset (ℤ × ℤ) × List GridCmd
  | [] => (st, grid, [])
  | h :: hs =>
    let r := processHand now W H st h
    let rest := runHands now W H r.1 (r.2.toList.foldl applyCmd grid) hs
    (rest.1, rest.2.1, r.2.toList ++ rest.2.2)

/-- One invocation of the `onResults` callback (source lines 68-211,
rendering omitted): if `results.multiHandLandmarks` is empty the guard at
line 97 skips all gesture/grid logic, otherwise each hand is processed in
order against the shared carry-state and voxel store. -/
def onResults (now : ℤ) (W H : ℚ) (hands : List HandFrame) (st : CarryState)
    (grid : Finset (ℤ × ℤ)) : CarryState × Finset (ℤ × ℤ) × List GridCmd :=
  runHands now W H st grid hands

/-- The carry-state after the reset branch of source lines 138-142 (also the
initial state of the refs at lines 26-28). -/
def resetState : CarryState :=
  { fistStartTime := none, isGrabbing := false, lastHandPos := none }

/-- A run of consecutive frames all classified as fist, at timestamps
`t0 :: ts`, starting from the reset carry-state (iterating the dwell logic of
source lines 132-137). -/
def fistRun (t0 : ℤ) (ts : List ℤ) : CarryState :=
  ts.foldl (fun st t => updateFistState t true st) (updateFistState t0 true resetState)

/-- Iterate `moveStep` over a list of mapped wrist positions, collecting the
issued commands in order. -/
def moveRun (st : CarryState) (ps : List (ℚ × ℚ)) : CarryState × List GridCmd :=
  ps.foldl (fun acc p =>
    let r := moveStep acc.1 p
    (r.1, acc.2 ++ r.2.toList)) (st, [])

/-- A frame whose shape is neither a fist nor a pinch (all distances large). -/
def hOpen : HandFrame :=
  { wrist := ⟨0, 0⟩, thumbTip := ⟨1, 0⟩, indexTip := ⟨1/2, 1/2⟩,
    middleTip := ⟨1, 1⟩, ringTip := ⟨0, 1⟩, pinkyTip := ⟨1, 1/2⟩ }

/-- A fist frame: all fingertips coincide with the wrist. -/
def hFist : HandFrame :=
  { wrist := ⟨1/2, 1/2⟩, thumbTip := ⟨1/2, 1/2⟩, indexTip := ⟨1/2, 1/2⟩,
    middleTip := ⟨1/2, 1/2⟩, ringTip := ⟨1/2, 1/2⟩, pinkyTip := ⟨1/2, 1/2⟩ }

/-- A frame satisfying the fist and the pinch geometric conditions at once:
every fingertip is within 0.15 of the wrist and the thumb-index distance is
0.02 < 0.04. -/
def hBoth : HandFrame :=
  { wrist := ⟨1/2, 1/2⟩, thumbTip := ⟨57/100, 1/2⟩, indexTip := ⟨11/20, 1/2⟩,
    middleTip := ⟨1/2, 1/2⟩, ringTip := ⟨1/2, 1/2⟩, pinkyTip := ⟨1/2, 1/2⟩ }

/-- The §8 scenario frame: thumb tip `(0.50, 0.50)`, index tip
`(0.50, 0.503)`, the other landmarks far from the wrist so the fist
condition fails. -/
def hPinch : HandFrame :=
  { wrist := ⟨9/10, 9/10⟩, thumbTip := ⟨1/2, 1/2⟩, indexTip := ⟨1/2, 503/1000⟩,
    middleTip := ⟨1/10, 1/10⟩, ringTip := ⟨1/10, 1/10⟩, pinkyTip := ⟨1/10, 1/10⟩ }

/-- C7: `shiftAll` is a group action on voxel sets: composing two shifts
equals the single summed shift, the zero shift is the identity, and a shift
replaces every key `(x, y)` with `(x + dx, y + dy)` as one whole-set
transform. -/
theorem shiftAll_group_action (s : Finset (ℤ × ℤ)) (d1 d2 : ℤ × ℤ) (x y : ℤ) :
    shiftAll (shiftAll s d1) d2 = shiftAll s (d1.1 + d2.1, d1.2 + d2.2) ∧
    shiftAll s (0, 0) = s ∧
    ((x, y) ∈ shiftAll s d1 ↔ (x - d1.1, y - d1.2) ∈ s) := by
  refine ⟨?_, ?_, ?_⟩
  · unfold shiftAll
    rw [Finset.image_image]
    congr 1
    funext p
    simp [Function.comp, add_assoc]
  · simp [shiftAll]
  · simp only [shiftAll, Finset.mem_image, Prod.ext_iff]
    constructor
    · rintro ⟨⟨a, b⟩, hmem, h1, h2⟩
      have ha : x - d1.1 = a := by omega
      have hb : y - d1.2 = b := by omega
      rw [ha, hb]
      exact hmem
    · intro hm
      exact ⟨(x - d1.1, y - d1.2), hm, by omega, by omega⟩

/-- C8: stamping is idempotent, and stamping an already-occupied cell leaves
the set unchanged. -/
theorem stamp_idem (s : Finset (ℤ × ℤ)) (key : ℤ × ℤ) :
    stamp (stamp s key) key = stamp s key ∧ (key ∈ s → stamp s key = s) := by
  constructor
  · simp [stamp]
  · intro hk
    simp [stamp, Finset.insert_eq_self.mpr hk]

/-- Witness for C8 at the concrete store `{(1, 2)}` and key `(1, 2)`. -/
theorem stamp_idem_witness :
    stamp (stamp {((1 : ℤ), (2 : ℤ))} (1, 2)) (1, 2) = stamp {((1 : ℤ), (2 : ℤ))} (1, 2) ∧
    stamp {((1 : ℤ), (2 : ℤ))} (1, 2) = {((1 : ℤ), (2 : ℤ))} :=
  ⟨(stamp_idem {(1, 2)} (1, 2)).1, (stamp_idem {(1, 2)} (1, 2)).2 (by decide)⟩

/-- C10: `shiftAll` preserves the number of occupied cells: integer
translation is injective, so no two cells merge and none is lost. -/
theorem shiftAll_card (s : Finset (ℤ × ℤ)) (d : ℤ × ℤ) :
    (shiftAll s d).card = s.card := by
  unfold shiftAll
  apply Finset.card_image_of_injective
  intro a b hab
  simp only [Prod.ext_iff] at hab ⊢
  omega

/-- C2 counterexample: a frame with zero detected hands leaves the
carry-state exactly as it was — here `isGrabbing` stays `true` and
`fistStartTime` stays set, where the claim requires them to reset. -/
theorem no_hands_cex :
    (onResults 5000 1280 720 [] ⟨some 42, true, some (100, 100)⟩ {((3 : ℤ), (4 : ℤ))}).1 =
      (⟨some 42, true, some (100, 100)⟩ : CarryState) ∧
    (⟨some 42, true, some (100, 100)⟩ : CarryState).isGrabbing = true ∧
    (⟨some 42, true, some (100, 100)⟩ : CarryState).isGrabbing ≠ resetState.isGrabbing := by
  refine ⟨rfl, rfl, by decide⟩

/-- C2 amended: a frame with zero detected hands is a complete no-op — the
voxel grid is untouched, no command is issued, and the carry-state is left
unchanged (it is not reset the way the shape-not-fist branch resets it). -/
theorem no_hands_noop (now : ℤ) (W H : ℚ) (st : CarryState) (grid : Finset (ℤ × ℤ)) :
    onResults now W H [] st grid = (st, grid, []) := rfl


/-- The open-hand example frame is not a fist. -/
theorem isFist_hOpen : isFist hOpen = false := by
  simp only [isFist, hOpen, getDistanceSq, decide_eq_false_iff_not]
  norm_num

/-- The open-hand example frame is not a pinch. -/
theorem isPinching_hOpen : isPinching hOpen = false := by
  simp only [isPinching, hOpen, getDistanceSq, decide_eq_false_iff_not]
  norm_num

/-- The fist example frame satisfies the fist condition. -/
theorem isFist_hFist : isFist hFist = true := by
  simp only [isFist, hFist, getDistanceSq, decide_eq_true_eq]
  norm_num

/-- The fist example frame also satisfies the pinch condition. -/
theorem isPinching_hFist : isPinching hFist = true := by
  simp only [isPinching, hFist, getDistanceSq, decide_eq_true_eq]
  norm_num

/-- The combined example frame satisfies the fist condition. -/
theorem isFist_hBoth : isFist hBoth = true := by
  simp only [isFist, hBoth, getDistanceSq, decide_eq_true_eq]
  norm_num

/-- The combined example frame satisfies the pinch condition. -/
theorem isPinching_hBoth : isPinching hBoth = true := by
  simp only [isPinching, hBoth, getDistanceSq, decide_eq_true_eq]
  norm_num

/-- The scenario frame is not a fist. -/
theorem isFist_hPinch : isFist hPinch = false := by
  simp only [isFist, hPinch, getDistanceSq, decide_eq_false_iff_not]
  norm_num

/-- The scenario frame satisfies the pinch condition. -/
theorem isPinching_hPinch : isPinching hPinch = true := by
  simp only [isPinching, hPinch, getDistanceSq, decide_eq_true_eq]
  norm_num

/-- The movement branch never issues a `stamp` command: its only command is
`shiftAll` (source lines 144-168 touch the store only through the shift). -/
theorem moveStep_no_stamp (st : CarryState) (cur : ℚ × ℚ) (key : ℤ × ℤ) :
    (moveStep st cur).2 ≠ some (GridCmd.stamp key) := by
  cases hl : st.lastHandPos with
  | none => simp [moveStep, hl]
  | some last =>
    simp only [moveStep, hl]
    split_ifs <;> simp

/-- When the frame is pinching and the carry-state after the dwell update is
not grabbing, the pinch branch fires and stamps the index-tip cell. -/
theorem processHand_pinch_branch (now : ℤ) (W H : ℚ) (st : CarryState) (h : HandFrame)
    (hg : (updateFistState now (isFist h) st).isGrabbing = false)
    (hp : isPinching h = true) :
    processHand now W H st h =
      (updateFistState now (isFist h) st,
        some (GridCmd.stamp
          (⌊(1 - h.indexTip.x) * W / gridSize⌋, ⌊h.indexTip.y * H / gridSize⌋))) := by
  simp [processHand, hg, hp]

/-- A non-fist frame always leaves the carry-state at the reset value
(source lines 138-142), whatever branch then runs. -/
theorem processHand_state_of_not_fist (now : ℤ) (W H : ℚ) (st : CarryState) (h : HandFrame)
    (hf : isFist h = false) :
    (processHand now W H st h).1 = resetState := by
  have hreset : updateFistState now (isFist h) st = resetState := by
    simp [updateFistState, hf, resetState]
  simp only [processHand, hreset]
  have : resetState.isGrabbing = false := rfl
  rw [if_neg (by simp [this])]
  by_cases hp : isPinching h = true
  · simp [hp]
  · simp [hp]

/-- C9: the §8 pinch scenario.  For a non-grabbing hand with thumb tip
`(0.50, 0.50)` and index tip `(0.50, 0.503)` on a 1280×720 canvas: the
squared pinch distance `0.003^2` is below `0.04^2` (computed in un-mirrored
normalized space), the index position maps to pixel `x = (1 - 0.5) * 1280 =
640` and `y = 0.503 * 720 = 362.16`, and the stamped cell is
`(⌊640/40⌋, ⌊362.16/40⌋) = (16, 9)`. -/
theorem pinch_stamp_scenario :
    isPinching hPinch = true ∧
    getDistanceSq hPinch.thumbTip hPinch.indexTip = (3 / 1000 : ℚ) ^ 2 ∧
    (1 - hPinch.indexTip.x) * 1280 = 640 ∧
    hPinch.indexTip.y * 720 = 36216 / 100 ∧
    (⌊(640 : ℚ) / gridSize⌋, ⌊(36216 / 100 : ℚ) / gridSize⌋) = ((16 : ℤ), (9 : ℤ)) ∧
    (processHand 0 1280 720 resetState hPinch).2 = some (GridCmd.stamp (16, 9)) := by
  refine ⟨isPinching_hPinch, ?_, ?_, ?_, ?_, ?_⟩
  · simp [getDistanceSq, hPinch]
    norm_num
  · simp [hPinch]
    norm_num
  · simp [hPinch]
    norm_num
  · have h1 : ⌊(640 : ℚ) / gridSize⌋ = (16 : ℤ) := by
      norm_num [Int.floor_eq_iff, gridSize]
    have h2 : ⌊(36216 / 100 : ℚ) / gridSize⌋ = (9 : ℤ) := by
      norm_num [Int.floor_eq_iff, gridSize]
    rw [h1, h2]
  · have hg : (updateFistState 0 (isFist hPinch) resetState).isGrabbing = false := by
      simp [updateFistState, isFist_hPinch, resetState]
    rw [processHand_pinch_branch 0 1280 720 resetState hPinch hg isPinching_hPinch]
    have hx : ⌊(1 - hPinch.indexTip.x) * 1280 / gridSize⌋ = (16 : ℤ) := by
      norm_num [Int.floor_eq_iff, hPinch, gridSize]
    have hy : ⌊hPinch.indexTip.y * 720 / gridSize⌋ = (9 : ℤ) := by
      norm_num [Int.floor_eq_iff, hPinch, gridSize]
    rw [hx, hy]

/-- C1 counterexample: the frame `hBoth` satisfies both the fist condition
(all four wrist-to-fingertip distances below 0.15) and the pinch condition
(thumb-index distance 0.02 < 0.04); starting from the reset carry-state (the
hand is not yet in the confirmed grabbing state), processing this frame DOES
stamp a voxel — the fist branch only updates the dwell timer and does not
suppress the pinch branch while `isGrabbing` is still false
(source lines 132-137 and 178-182). -/
theorem grab_precedence_cex :
    isFist hBoth = true ∧ isPinching hBoth = true ∧
    (processHand 100 1280 720 resetState hBoth).2 = some (GridCmd.stamp (14, 9)) := by
  refine ⟨isFist_hBoth, isPinching_hBoth, ?_⟩
  have hg : (updateFistState 100 (isFist hBoth) resetState).isGrabbing = false := by
    simp [updateFistState, isFist_hBoth, resetState]
  rw [processHand_pinch_branch 100 1280 720 resetState hBoth hg isPinching_hBoth]
  have hx : ⌊(1 - hBoth.indexTip.x) * 1280 / gridSize⌋ = (14 : ℤ) := by
    norm_num [Int.floor_eq_iff, hBoth, gridSize]
  have hy : ⌊hBoth.indexTip.y * 720 / gridSize⌋ = (9 : ℤ) := by
    norm_num [Int.floor_eq_iff, hBoth, gridSize]
  rw [hx, hy]

/-- C1 amended: on a pinching frame, a stamp is issued exactly when the
carry-state after the dwell update is not in the confirmed grabbing state.
In particular a frame satisfying both the fist and the pinch geometric
conditions still stamps while the fist dwell is running; only confirmed
grabbing (`isGrabbing = true`) suppresses stamping. -/
theorem grab_precedence_amended (now : ℤ) (W H : ℚ) (st : CarryState) (h : HandFrame)
    (hp : isPinching h = true) :
    (∃ key, (processHand now W H st h).2 = some (GridCmd.stamp key)) ↔
      (updateFistState now (isFist h) st).isGrabbing = false := by
  by_cases hg : (updateFistState now (isFist h) st).isGrabbing = true
  · simp only [processHand, hg, if_pos]
    constructor
    · rintro ⟨key, hkey⟩
      exact absurd hkey (moveStep_no_stamp _ _ key)
    · intro hfalse
      exact absurd hfalse (by decide)
  · have hg' : (updateFistState now (isFist h) st).isGrabbing = false := by
      cases hb : (updateFistState now (isFist h) st).isGrabbing
      · rfl
      · exact absurd hb hg
    rw [processHand_pinch_branch now W H st h hg' hp]
    simp [hg']

/-- Witness for C1's amended theorem at the concrete frame `hBoth` and the
reset carry-state. -/
theorem grab_precedence_amended_witness :
    (∃ key, (processHand 100 1280 720 resetState hBoth).2 = some (GridCmd.stamp key)) ↔
      (updateFistState 100 (isFist hBoth) resetState).isGrabbing = false :=
  grab_precedence_amended 100 1280 720 resetState hBoth isPinching_hBoth

/-- Folding the fist-branch dwell update over a list of frame timestamps,
starting from a state whose dwell timer holds a nonzero start time `t0`,
keeps the timer and the anchor and sets `isGrabbing` exactly when some frame
time exceeds `t0` by more than 1000ms. -/
theorem fistFold_eq (ts : List ℤ) (st : CarryState) (t0 : ℤ) (h0 : t0 ≠ 0)
    (hst : st.fistStartTime = some t0) :
    ts.foldl (fun s t => updateFistState t true s) st =
      { st with isGrabbing := st.isGrabbing || ts.any fun t => decide (t - t0 > 1000) } := by
  induction ts generalizing st with
  | nil => simp
  | cons t ts ih =>
    have hstep : updateFistState t true st =
        if t - t0 > 1000 then { st with isGrabbing := true } else st := by
      simp [updateFistState, hst, h0]
    by_cases hgt : t - t0 > 1000
    · rw [List.foldl_cons, hstep, if_pos hgt,
        ih { st with isGrabbing := true } hst]
      simp [hgt]
    · rw [List.foldl_cons, hstep, if_neg hgt, ih st hst]
      simp [hgt]

/-- A continuous fist run from the reset state at times `t0 :: ts` (with a
realistic nonzero first timestamp) holds the dwell start `t0`, no anchor, and
is grabbing exactly when some later frame is more than 1000ms past `t0`. -/
theorem fistRun_eq (t0 : ℤ) (ts : List ℤ) (h0 : t0 ≠ 0) :
    fistRun t0 ts =
      ⟨some t0, ts.any fun t => decide (t - t0 > 1000), none⟩ := by
  unfold fistRun
  have hfirst : updateFistState t0 true resetState =
      ⟨some t0, false, none⟩ := by
    simp [updateFistState, resetState]
  rw [hfirst, fistFold_eq ts _ t0 h0 rfl]
  simp

/-- C4: dwell gating.  For a continuous fist run starting at a (nonzero)
timestamp `t0`: as long as every sampled frame is less than 1000ms past
`t0`, `isGrabbing` is never set; and one further fist frame sampled more
than 1000ms past `t0` sets `isGrabbing := true`, regardless of which and
how many frames `ts` were sampled in between. -/
theorem dwell_gating (t0 : ℤ) (ts : List ℤ) (tNext : ℤ) (h0 : t0 ≠ 0) :
    ((∀ t ∈ ts, t - t0 < 1000) → (fistRun t0 ts).isGrabbing = false) ∧
    (tNext - t0 > 1000 → (updateFistState tNext true (fistRun t0 ts)).isGrabbing = true) := by
  rw [fistRun_eq t0 ts h0]
  constructor
  · intro hlt
    simp only [List.any_eq_false, decide_eq_true_eq]
    intro t ht
    have := hlt t ht
    omega
  · intro hgt
    simp [updateFistState, h0, hgt]

/-- Witness for C4: a fist starting at `t0 = 5` with extra frames at 500 and
900 (each less than 1000ms past `t0`) is not grabbing, and a frame at 1200
(more than 1000ms past `t0`) sets grabbing. -/
theorem dwell_gating_witness :
    (fistRun 5 [500, 900]).isGrabbing = false ∧
    (updateFistState 1200 true (fistRun 5 [500, 900])).isGrabbing = true :=
  ⟨(dwell_gating 5 [500, 900] 1200 (by decide)).1 (by decide),
   (dwell_gating 5 [500, 900] 1200 (by decide)).2 (by decide)⟩

/-- C5: release cancels grab.  A single frame whose shape is not a fist
resets the carry-state completely (`fistStartTime = none`,
`isGrabbing = false`, `lastAnchor = none`), whatever state — including
confirmed grabbing — the tracker was in; and any fist run from the reset
state that reaches `isGrabbing = true` must contain a frame more than
1000ms past its new start time, i.e. a fresh 1000ms dwell is required. -/
theorem release_cancels_grab (now : ℤ) (W H : ℚ) (st : CarryState) (h : HandFrame)
    (t1 : ℤ) (ts : List ℤ) (hf : isFist h = false) (ht1 : t1 ≠ 0)
    (hg : (fistRun t1 ts).isGrabbing = true) :
    (processHand now W H st h).1 = resetState ∧ ∃ t ∈ ts, t - t1 > 1000 := by
  refine ⟨processHand_state_of_not_fist now W H st h hf, ?_⟩
  rw [fistRun_eq t1 ts ht1] at hg
  simp only [List.any_eq_true, decide_eq_true_eq] at hg
  exact hg

/-- Witness for C5: from the mid-grab state `⟨some 3, true, some (5, 5)⟩`,
one open-hand frame resets everything; and the fist run at times
`7 :: [2000]` that re-reaches grabbing indeed contains a frame more than
1000ms past 7. -/
theorem release_cancels_grab_witness :
    (processHand 0 1280 720 ⟨some 3, true, some (5, 5)⟩ hOpen).1 = resetState ∧
    ∃ t ∈ [(2000 : ℤ)], t - 7 > 1000 :=
  release_cancels_grab 0 1280 720 ⟨some 3, true, some (5, 5)⟩ hOpen 7 [2000]
    isFist_hOpen (by decide)
    (by rw [fistRun_eq 7 [2000] (by decide)]; decide)

/-- When a displacement component exceeds one full cell, its rounded cell
shift is nonzero, so the inner guard at source line 156 always passes once
the outer threshold at line 152 does. -/
theorem jsRound_shift_ne_zero (d : ℚ) (hd : gridSize < |d|) :
    jsRound (d / gridSize) ≠ 0 := by
  unfold jsRound gridSize at *
  rcases lt_abs.mp hd with hpos | hneg
  · have h1 : (1 : ℚ) < d / 40 := (one_lt_div (by norm_num)).mpr hpos
    have h2 : (1 : ℤ) ≤ ⌊d / 40 + 1 / 2⌋ := by
      rw [Int.le_floor]
      push_cast
      linarith
    omega
  · have h1 : (1 : ℚ) < -d / 40 := (one_lt_div (by norm_num)).mpr hneg
    rw [neg_div] at h1
    have h2 : ⌊d / 40 + 1 / 2⌋ < 0 := by
      rw [Int.floor_lt]
      push_cast
      linarith
    omega

/-- A movement frame whose unconsumed delta from the anchor stays within one
cell in both components is absorbed: no command, anchor not advanced. -/
theorem moveStep_sub_threshold (fst : Option ℤ) (g : Bool) (a p : ℚ × ℚ)
    (h1 : |p.1 - a.1| ≤ gridSize) (h2 : |p.2 - a.2| ≤ gridSize) :
    moveStep ⟨fst, g, some a⟩ p = (⟨fst, g, some a⟩, none) := by
  simp only [moveStep]
  rw [if_neg]
  push_neg
  exact ⟨h1, h2⟩

/-- A movement frame whose unconsumed delta crosses one cell in some
component issues the rounded `shiftAll` and advances the anchor. -/
theorem moveStep_cross (fst : Option ℤ) (g : Bool) (a q : ℚ × ℚ)
    (hc : gridSize < |q.1 - a.1| ∨ gridSize < |q.2 - a.2|) :
    moveStep ⟨fst, g, some a⟩ q =
      (⟨fst, g, some q⟩,
        some (GridCmd.shiftAll
          (jsRound ((q.1 - a.1) / gridSize), jsRound ((q.2 - a.2) / gridSize)))) := by
  simp only [moveStep]
  rw [if_pos hc, if_pos (hc.imp (jsRound_shift_ne_zero _) (jsRound_shift_ne_zero _))]

/-- Folding sub-threshold movement frames changes neither the state nor the
accumulated command list. -/
theorem moveFold_sub_threshold (fst : Option ℤ) (g : Bool) (a : ℚ × ℚ)
    (ps : List (ℚ × ℚ)) (acc : List GridCmd)
    (hsub : ∀ p ∈ ps, |p.1 - a.1| ≤ gridSize ∧ |p.2 - a.2| ≤ gridSize) :
    ps.foldl (fun acc p =>
        let r := moveStep acc.1 p
        (r.1, acc.2 ++ r.2.toList)) (⟨fst, g, some a⟩, acc) = (⟨fst, g, some a⟩, acc) := by
  induction ps generalizing acc with
  | nil => rfl
  | cons p ps ih =>
    have hp := hsub p (by simp)
    rw [List.foldl_cons]
    have hstep : moveStep (⟨fst, g, some a⟩ : CarryState) p = (⟨fst, g, some a⟩, none) :=
      moveStep_sub_threshold fst g a p hp.1 hp.2
    simp only [hstep, Option.toList_none, List.append_nil]
    exact ih acc fun p hp => hsub p (by simp [hp])

/-- C6: sub-cell hysteresis.  While grabbing with anchor `a`, a run of
movement frames each of whose unconsumed delta from `a` stays within
`gridSize` in both components produces no command and never advances the
anchor; the first frame `q` whose unconsumed delta crosses `gridSize` in
some component issues exactly one `shiftAll` of
`(round(dx/gridSize), round(dy/gridSize))` and advances the anchor to `q`. -/
theorem subcell_hysteresis (fst : Option ℤ) (a q : ℚ × ℚ) (ps : List (ℚ × ℚ))
    (hsub : ∀ p ∈ ps, |p.1 - a.1| ≤ gridSize ∧ |p.2 - a.2| ≤ gridSize)
    (hcross : gridSize < |q.1 - a.1| ∨ gridSize < |q.2 - a.2|) :
    moveRun ⟨fst, true, some a⟩ ps = (⟨fst, true, some a⟩, []) ∧
    moveStep ⟨fst, true, some a⟩ q =
      (⟨fst, true, some q⟩,
        some (GridCmd.shiftAll
          (jsRound ((q.1 - a.1) / gridSize), jsRound ((q.2 - a.2) / gridSize)))) :=
  ⟨moveFold_sub_threshold fst true a ps [] hsub, moveStep_cross fst true a q hcross⟩

/-- Witness for C6: from anchor `(0, 0)`, the frames `(30, 0)` and `(39, 5)`
are absorbed, and the frame `(45, 0)` (cumulative delta 45 > 40) issues the
single command `shiftAll (1, 0)` since `round(45/40) = 1`. -/
theorem subcell_hysteresis_witness :
    moveRun ⟨some 7, true, some ((0 : ℚ), (0 : ℚ))⟩ [(30, 0), (39, 5)] =
      (⟨some 7, true, some (0, 0)⟩, []) ∧
    moveStep ⟨some 7, true, some ((0 : ℚ), (0 : ℚ))⟩ (45, 0) =
      (⟨some 7, true, some (45, 0)⟩, some (GridCmd.shiftAll (1, 0))) := by
  have h := subcell_hysteresis (some 7) (0, 0) (45, 0) [(30, 0), (39, 5)]
    (by
      intro p hp
      simp only [List.mem_cons, List.not_mem_nil, or_false] at hp
      rcases hp with rfl | rfl <;> constructor <;>
        simp [gridSize, abs_le] <;> norm_num)
    (by
      left
      rw [show |(45 : ℚ) - 0| = 45 by norm_num]
      norm_num [gridSize])
  have h1 : jsRound (((45 : ℚ) - 0) / gridSize) = 1 := by
    norm_num [jsRound, gridSize, Int.floor_eq_iff]
  have h2 : jsRound (((0 : ℚ) - 0) / gridSize) = 0 := by
    norm_num [jsRound, gridSize, Int.floor_eq_iff]
  rw [h1, h2] at h
  exact h

/-- Processing a frame's hand list in two chunks through the shared
carry-state and store composes sequentially: the second chunk starts from
the state and grid the first chunk produced, and the command lists
concatenate. -/
theorem runHands_append (now : ℤ) (W H : ℚ) (st : CarryState) (grid : Finset (ℤ × ℤ))
    (hs1 hs2 : List HandFrame) :
    runHands now W H st grid (hs1 ++ hs2) =
      ((runHands now W H (runHands now W H st grid hs1).1
          (runHands now W H st grid hs1).2.1 hs2).1,
       (runHands now W H (runHands now W H st grid hs1).1
          (runHands now W H st grid hs1).2.1 hs2).2.1,
       (runHands now W H st grid hs1).2.2 ++
         (runHands now W H (runHands now W H st grid hs1).1
            (runHands now W H st grid hs1).2.1 hs2).2.2) := by
  induction hs1 generalizing st grid with
  | nil => simp [runHands]
  | cons h hs ih =>
    simp only [List.cons_append, runHands, List.append_eq]
    rw [ih]
    simp [List.append_assoc]

/-- C3 counterexample: the hands of one frame are NOT processed against
independent per-hand carry-states.  From the shared state
`⟨some 100, false, none⟩` at time 1500, the frame `[hOpen, hFist]` leaves
the fist hand not grabbing (the open hand reset the shared dwell timer
first), while the same fist hand alone in the frame becomes grabbing. -/
theorem independent_hands_cex :
    (onResults 1500 1280 720 [hOpen, hFist] ⟨some 100, false, none⟩ ∅).1.isGrabbing = false ∧
    (onResults 1500 1280 720 [hFist] ⟨some 100, false, none⟩ ∅).1.isGrabbing = true := by
  have hOpenStep : processHand 1500 1280 720 ⟨some 100, false, none⟩ hOpen =
      (resetState, none) := by
    have hreset : updateFistState 1500 (isFist hOpen) ⟨some 100, false, none⟩ = resetState := by
      simp [updateFistState, isFist_hOpen, resetState]
    simp [processHand, hreset, resetState, isPinching_hOpen]
  have hFistStep : (processHand 1500 1280 720 resetState hFist).1 =
      (⟨some 1500, false, none⟩ : CarryState) := by
    have hup : updateFistState 1500 (isFist hFist) resetState =
        (⟨some 1500, false, none⟩ : CarryState) := by
      simp [updateFistState, isFist_hFist, resetState]
    rw [processHand_pinch_branch 1500 1280 720 resetState hFist
      (by rw [hup]) isPinching_hFist, hup]
  have hFistAlone : (processHand 1500 1280 720 ⟨some 100, false, none⟩ hFist).1.isGrabbing =
      true := by
    have hup : updateFistState 1500 (isFist hFist) ⟨some 100, false, none⟩ =
        (⟨some 100, true, none⟩ : CarryState) := by
      simp [updateFistState, isFist_hFist]
    simp only [processHand, hup]
    simp [moveStep]
  constructor
  · simp only [onResults, runHands, hOpenStep]
    simp [hFistStep]
  · simp only [onResults, runHands]
    exact hFistAlone

/-- C3 amended: all hands of a frame share the single carry-state and are
processed sequentially in list order; processing a frame equals processing
any prefix of its hands and then the rest from the resulting state and grid,
so a hand's outcome may depend on the hands processed before it in the same
frame. -/
theorem shared_state_sequential (now : ℤ) (W H : ℚ) (st : CarryState)
    (grid : Finset (ℤ × ℤ)) (hs1 hs2 : List HandFrame) :
    onResults now W H (hs1 ++ hs2) st grid =
      ((onResults now W H hs2 (onResults now W H hs1 st grid).1
          (onResults now W H hs1 st grid).2.1).1,
       (onResults now W H hs2 (onResults now W H hs1 st grid).1
          (onResults now W H hs1 st grid).2.1).2.1,
       (onResults now W H hs1 st grid).2.2 ++
         (onResults now W H hs2 (onResults now W H hs1 st grid).1
            (onResults now W H hs1 st grid).2.1).2.2) := by
  simp only [onResults]
  exact runHands_append now W H st grid hs1 hs2
